import Mathlib

/-!
Verification of `src/geometry/intersections.wasm.rs` (segment / polygon
intersection routines).

The Rust code works on `f64`; the embedding models the arithmetic with
exact rationals (`ℚ`).  All claim instances considered below use values
on which the `f64` computation is exact, so the rational model coincides
with the code on them.  `find_all_intersections` indexes slices with the
panicking Rust `[]` operator; the embedding returns `Option (List ℚ)`,
where `none` models an out-of-bounds index panic and `some out` models
normal return of the vector `out`.
-/

namespace Intersections

/-- The fixed parallel-detection tolerance `1e-10` from the source. -/
def eps : ℚ := 1 / 10 ^ 10

/-- `Point { x: f64, y: f64 }` from the source. -/
structure Point where
  x : ℚ
  y : ℚ
deriving DecidableEq

/-- `Point::new`. -/
def Point.new (x y : ℚ) : Point := ⟨x, y⟩

/-- The denominator `(y4-y3)*(x2-x1) - (x4-x3)*(y2-y1)` computed by
`find_intersection`. -/
def denominator (p1 p2 p3 p4 : Point) : ℚ :=
  (p4.y - p3.y) * (p2.x - p1.x) - (p4.x - p3.x) * (p2.y - p1.y)

/-- The parametric position `ua` along segment `(p1,p2)` computed by
`find_intersection`. -/
def uaOf (p1 p2 p3 p4 : Point) : ℚ :=
  ((p4.x - p3.x) * (p1.y - p3.y) - (p4.y - p3.y) * (p1.x - p3.x)) /
    denominator p1 p2 p3 p4

/-- The parametric position `ub` along segment `(p3,p4)` computed by
`find_intersection`. -/
def ubOf (p1 p2 p3 p4 : Point) : ℚ :=
  ((p2.x - p1.x) * (p1.y - p3.y) - (p2.y - p1.y) * (p1.x - p3.x)) /
    denominator p1 p2 p3 p4

/-- `find_intersection`: segment/segment intersection, translated
line-for-line from the source (`let` chains factored into the named
helper definitions above). -/
def find_intersection (p1 p2 p3 p4 : Point) : Option Point :=
  let d := denominator p1 p2 p3 p4
  if |d| < eps then
    none
  else
    let ua := uaOf p1 p2 p3 p4
    let ub := ubOf p1 p2 p3 p4
    if ua < 0 ∨ ua > 1 ∨ ub < 0 ∨ ub > 1 then
      none
    else
      some (Point.new (p1.x + ua * (p2.x - p1.x)) (p1.y + ua * (p2.y - p1.y)))

/-- The index list of `for i in (0..n).step_by(2)`: the even numbers
below `n`, in order. -/
def evens (n : Nat) : List Nat :=
  (List.range n).filter (fun k => k % 2 = 0)

/-- Run an `Option`-valued function over a list left to right, stopping
at the first `none` (the model of a loop whose body may panic). -/
def optMap {α β : Type} (f : α → Option β) : List α → Option (List β)
  | [] => some []
  | a :: l => (f a).bind fun b => (optMap f l).bind fun bs => some (b :: bs)

/-- The body of the nested loop in `find_all_intersections` for one
pair `(i, j)` of even offsets: build the two edges by slice indexing
(`none` models an out-of-bounds panic), run `find_intersection`, and
produce the coordinates pushed for this pair. -/
def scanPair (v1 v2 : List ℚ) (i j : Nat) : Option (List ℚ) :=
  (v1.get? i).bind fun x1 =>
  (v1.get? (i + 1)).bind fun y1 =>
  (v1.get? ((i + 2) % v1.length)).bind fun x2 =>
  (v1.get? ((i + 3) % v1.length)).bind fun y2 =>
  (v2.get? j).bind fun x3 =>
  (v2.get? (j + 1)).bind fun y3 =>
  (v2.get? ((j + 2) % v2.length)).bind fun x4 =>
  (v2.get? ((j + 3) % v2.length)).bind fun y4 =>
  match find_intersection (Point.new x1 y1) (Point.new x2 y2)
      (Point.new x3 y3) (Point.new x4 y4) with
  | some p => some [p.x, p.y]
  | none => some []

/-- `find_all_intersections`: the nested sweep over all even offsets of
both vertex arrays, concatenating the coordinates pushed by each
iteration in loop order.  `none` models a panic of the Rust code. -/
def find_all_intersections (v1 v2 : List ℚ) : Option (List ℚ) :=
  (optMap (fun i =>
      (optMap (fun j => scanPair v1 v2 i j) (evens v2.length)).bind
        fun cells => some cells.flatten)
    (evens v1.length)).bind
  fun rows => some rows.flatten

/-! ### Specification-side definitions

`find_all_intersections_spec` restates the polygon sweep in the words of
the spec (§4.2): edges at every even offset with modulo wraparound, the
full cross product of A-edges against B-edges in (outer, inner) order,
each intersecting pair contributing its x then y coordinate. -/

/-- Total lookup into a flat vertex array (spec side; only used at
in-bounds indices). -/
def getAt (v : List ℚ) (i : Nat) : ℚ := (v.get? i).getD 0

/-- The spec's edge `i` of a polygon: from vertex `(v[i], v[i+1])` to
vertex `(v[(i+2) mod len], v[(i+3) mod len])`. -/
def edgeFrom (v : List ℚ) (i : Nat) : Point × Point :=
  (Point.new (getAt v i) (getAt v (i + 1)),
   Point.new (getAt v ((i + 2) % v.length)) (getAt v ((i + 3) % v.length)))

/-- The coordinates one edge pair `(i, j)` contributes to the output:
`[x, y]` of the intersection point, or nothing. -/
def specCell (v1 v2 : List ℚ) (i j : Nat) : List ℚ :=
  (find_intersection (edgeFrom v1 i).1 (edgeFrom v1 i).2
      (edgeFrom v2 j).1 (edgeFrom v2 j).2).elim [] (fun p => [p.x, p.y])

/-- The spec's description of the polygon sweep output. -/
def find_all_intersections_spec (v1 v2 : List ℚ) : List ℚ :=
  ((evens v1.length).map (fun i =>
    ((evens v2.length).map (fun j => specCell v1 v2 i j)).flatten)).flatten

/-- Two successive calls of the sweep on the same input (the spec's
idempotence scenario). -/
def scan_twice (v1 v2 : List ℚ) : Option (List ℚ) × Option (List ℚ) :=
  let first := find_all_intersections v1 v2
  let second := find_all_intersections v1 v2
  (first, second)

/-! ### Basic lemmas -/

@[simp] theorem optMap_nil {α β : Type} (f : α → Option β) :
    optMap f [] = some [] := rfl

@[simp] theorem optMap_cons {α β : Type} (f : α → Option β) (a : α) (l : List α) :
    optMap f (a :: l) =
      (f a).bind (fun b => (optMap f l).bind (fun bs => some (b :: bs))) := rfl

/-- `find_intersection` with its `let` chain expanded. -/
theorem find_intersection_eq (p1 p2 p3 p4 : Point) :
    find_intersection p1 p2 p3 p4 =
      if |denominator p1 p2 p3 p4| < eps then none
      else if uaOf p1 p2 p3 p4 < 0 ∨ uaOf p1 p2 p3 p4 > 1 ∨
          ubOf p1 p2 p3 p4 < 0 ∨ ubOf p1 p2 p3 p4 > 1 then none
      else some (Point.new
        (p1.x + uaOf p1 p2 p3 p4 * (p2.x - p1.x))
        (p1.y + uaOf p1 p2 p3 p4 * (p2.y - p1.y))) := rfl

theorem mem_evens {i n : Nat} : i ∈ evens n ↔ i < n ∧ i % 2 = 0 := by
  simp [evens, List.mem_filter, List.mem_range]

theorem get?_eq_some_getAt (v : List ℚ) (i : Nat) (h : i < v.length) :
    v.get? i = some (getAt v i) := by
  cases hv : v.get? i with
  | none => exact absurd (List.get?_eq_none.mp hv) (by omega)
  | some a => simp only [getAt, hv, Option.getD_some]

theorem optMap_eq_map {α β : Type} (f : α → Option β) (g : α → β) :
    ∀ l : List α, (∀ a ∈ l, f a = some (g a)) →
      optMap f l = some (l.map g)
  | [], _ => rfl
  | a :: l, h => by
    rw [optMap_cons, h a (List.mem_cons_self a l),
      optMap_eq_map f g l (fun b hb => h b (List.mem_cons_of_mem a hb))]
    rfl

/-- On even-length vertex arrays every slice access of the loop body is
in bounds, and the body contributes exactly the spec's cell. -/
theorem scanPair_eq (v1 v2 : List ℚ) {i j : Nat}
    (hi : i ∈ evens v1.length) (hj : j ∈ evens v2.length)
    (h1 : v1.length % 2 = 0) (h2 : v2.length % 2 = 0) :
    scanPair v1 v2 i j = some (specCell v1 v2 i j) := by
  obtain ⟨hi1, hi2⟩ := mem_evens.mp hi
  obtain ⟨hj1, hj2⟩ := mem_evens.mp hj
  have hv1 : 0 < v1.length := lt_of_le_of_lt (Nat.zero_le i) hi1
  have hv2 : 0 < v2.length := lt_of_le_of_lt (Nat.zero_le j) hj1
  rw [scanPair,
    get?_eq_some_getAt v1 i hi1,
    get?_eq_some_getAt v1 (i + 1) (by omega),
    get?_eq_some_getAt v1 ((i + 2) % v1.length) (Nat.mod_lt _ hv1),
    get?_eq_some_getAt v1 ((i + 3) % v1.length) (Nat.mod_lt _ hv1),
    get?_eq_some_getAt v2 j hj1,
    get?_eq_some_getAt v2 (j + 1) (by omega),
    get?_eq_some_getAt v2 ((j + 2) % v2.length) (Nat.mod_lt _ hv2),
    get?_eq_some_getAt v2 ((j + 3) % v2.length) (Nat.mod_lt _ hv2)]
  simp only [Option.some_bind]
  simp only [specCell, edgeFrom]
  cases find_intersection
      (Point.new (getAt v1 i) (getAt v1 (i + 1)))
      (Point.new (getAt v1 ((i + 2) % v1.length)) (getAt v1 ((i + 3) % v1.length)))
      (Point.new (getAt v2 j) (getAt v2 (j + 1)))
      (Point.new (getAt v2 ((j + 2) % v2.length)) (getAt v2 ((j + 3) % v2.length))) <;>
    rfl

/-- Refinement: on even-length inputs the translated sweep panics
nowhere and returns exactly the spec's output sequence. -/
theorem find_all_eq_specAux (v1 v2 : List ℚ)
    (h1 : v1.length % 2 = 0) (h2 : v2.length % 2 = 0) :
    find_all_intersections v1 v2 = some (find_all_intersections_spec v1 v2) := by
  rw [find_all_intersections,
    optMap_eq_map _
      (fun i => ((evens v2.length).map (fun j => specCell v1 v2 i j)).flatten)
      (evens v1.length)
      (fun i hi => by
        rw [optMap_eq_map _ (fun j => specCell v1 v2 i j) (evens v2.length)
          (fun j hj => scanPair_eq v1 v2 hi hj h1 h2)]
        rfl)]
  rfl

/-! ### Algebraic lemmas about the intersection formulas -/

theorem eps_pos : 0 < eps := by norm_num [eps]

theorem denominator_swap (p1 p2 p3 p4 : Point) :
    denominator p3 p4 p1 p2 = -denominator p1 p2 p3 p4 := by
  unfold denominator; ring

theorem uaOf_swap (p1 p2 p3 p4 : Point) :
    uaOf p3 p4 p1 p2 = ubOf p1 p2 p3 p4 := by
  unfold uaOf ubOf denominator
  rw [show (p2.x - p1.x) * (p3.y - p1.y) - (p2.y - p1.y) * (p3.x - p1.x) =
      -((p2.x - p1.x) * (p1.y - p3.y) - (p2.y - p1.y) * (p1.x - p3.x)) by ring,
    show (p2.y - p1.y) * (p4.x - p3.x) - (p2.x - p1.x) * (p4.y - p3.y) =
      -((p4.y - p3.y) * (p2.x - p1.x) - (p4.x - p3.x) * (p2.y - p1.y)) by ring,
    neg_div_neg_eq]

theorem ubOf_swap (p1 p2 p3 p4 : Point) :
    ubOf p3 p4 p1 p2 = uaOf p1 p2 p3 p4 := by
  unfold uaOf ubOf denominator
  rw [show (p4.x - p3.x) * (p3.y - p1.y) - (p4.y - p3.y) * (p3.x - p1.x) =
      -((p4.x - p3.x) * (p1.y - p3.y) - (p4.y - p3.y) * (p1.x - p3.x)) by ring,
    show (p2.y - p1.y) * (p4.x - p3.x) - (p2.x - p1.x) * (p4.y - p3.y) =
      -((p4.y - p3.y) * (p2.x - p1.x) - (p4.x - p3.x) * (p2.y - p1.y)) by ring,
    neg_div_neg_eq]

theorem abs_denominator_swap (p1 p2 p3 p4 : Point) :
    |denominator p3 p4 p1 p2| = |denominator p1 p2 p3 p4| := by
  rw [denominator_swap, abs_neg]

/-- The parametric solutions locate the same point on both segments
(exactly, in rational arithmetic), as long as the denominator is
nonzero. -/
theorem point_on_both_x (p1 p2 p3 p4 : Point)
    (hD : denominator p1 p2 p3 p4 ≠ 0) :
    p3.x + ubOf p1 p2 p3 p4 * (p4.x - p3.x) =
      p1.x + uaOf p1 p2 p3 p4 * (p2.x - p1.x) := by
  unfold uaOf ubOf at *
  field_simp
  unfold denominator at *
  ring

theorem point_on_both_y (p1 p2 p3 p4 : Point)
    (hD : denominator p1 p2 p3 p4 ≠ 0) :
    p3.y + ubOf p1 p2 p3 p4 * (p4.y - p3.y) =
      p1.y + uaOf p1 p2 p3 p4 * (p2.y - p1.y) := by
  unfold uaOf ubOf at *
  field_simp
  unfold denominator at *
  ring

/-- A nonzero denominator follows from passing the parallel check. -/
theorem denominator_ne_zero {p1 p2 p3 p4 : Point}
    (h : ¬ |denominator p1 p2 p3 p4| < eps) :
    denominator p1 p2 p3 p4 ≠ 0 := by
  intro h0
  exact h (by rw [h0, abs_zero]; exact eps_pos)

/-- A zero-length first segment always yields a zero denominator, hence
no intersection. -/
theorem find_intersection_degenerate_left (p q r : Point) :
    find_intersection p p q r = none := by
  rw [find_intersection_eq, if_pos]
  rw [show denominator p p q r = 0 by unfold denominator; ring, abs_zero]
  exact eps_pos

/-- A zero-length second segment always yields a zero denominator, hence
no intersection. -/
theorem find_intersection_degenerate_right (p q r : Point) :
    find_intersection p q r r = none := by
  rw [find_intersection_eq, if_pos]
  rw [show denominator p q r r = 0 by unfold denominator; ring, abs_zero]
  exact eps_pos

/-! ### List helper lemmas -/

theorem flatten_eq_nil_of_forall {α : Type} (l : List α) (f : α → List ℚ)
    (h : ∀ a ∈ l, f a = []) : (l.map f).flatten = [] := by
  induction l with
  | nil => rfl
  | cons a t ih =>
    rw [List.map_cons, List.flatten_cons, h a (List.mem_cons_self a t),
      List.nil_append]
    exact ih (fun b hb => h b (List.mem_cons_of_mem a hb))

theorem flatten_length_even {α : Type} (l : List α) (f : α → List ℚ)
    (h : ∀ a ∈ l, (f a).length % 2 = 0) : ((l.map f).flatten).length % 2 = 0 := by
  induction l with
  | nil => rfl
  | cons a t ih =>
    rw [List.map_cons, List.flatten_cons, List.length_append]
    have h1 := h a (List.mem_cons_self a t)
    have h2 := ih (fun b hb => h b (List.mem_cons_of_mem a hb))
    omega

/-- A two-element vertex array encodes a single vertex; both endpoints
of its only edge coincide. -/
theorem edgeFrom_pair (x y : ℚ) :
    edgeFrom [x, y] 0 = (Point.new x y, Point.new x y) := by
  simp [edgeFrom, getAt]

/-- Each cell of the spec sweep contributes an even number of doubles
(zero or two). -/
theorem specCell_length_even (v1 v2 : List ℚ) (i j : Nat) :
    (specCell v1 v2 i j).length % 2 = 0 := by
  rw [specCell]
  cases find_intersection (edgeFrom v1 i).1 (edgeFrom v1 i).2
      (edgeFrom v2 j).1 (edgeFrom v2 j).2 <;> simp

/-! ### Claim theorems -/

/-- Claim C1: `find_intersection` returns a point exactly when the
denominator clears the `1e-10` parallel tolerance and both parametric
positions `ua` and `ub` lie in the closed interval `[0, 1]`; strictly
out-of-range positions give no intersection, while the boundary values
`0` and `1` (shared endpoints) are accepted — in particular the
segments `(0,0)-(1,1)` and `(1,1)-(2,0)`, which share exactly the
endpoint `(1,1)`, report it as their intersection. -/
theorem find_intersection_some_iff :
    (∀ p1 p2 p3 p4 : Point,
      (find_intersection p1 p2 p3 p4).isSome = true ↔
        (eps ≤ |denominator p1 p2 p3 p4| ∧
          0 ≤ uaOf p1 p2 p3 p4 ∧ uaOf p1 p2 p3 p4 ≤ 1 ∧
          0 ≤ ubOf p1 p2 p3 p4 ∧ ubOf p1 p2 p3 p4 ≤ 1)) ∧
    find_intersection (Point.new 0 0) (Point.new 1 1) (Point.new 1 1) (Point.new 2 0) =
      some (Point.new 1 1) := by
  constructor
  · intro p1 p2 p3 p4
    rw [find_intersection_eq]
    split_ifs with h1 h2
    · simp only [Option.isSome_none, Bool.false_eq_true, false_iff]
      rintro ⟨hle, -⟩
      exact absurd h1 (not_lt.mpr hle)
    · simp only [Option.isSome_none, Bool.false_eq_true, false_iff]
      rintro ⟨-, ha0, ha1, hb0, hb1⟩
      rcases h2 with h | h | h | h <;> linarith
    · push_neg at h1 h2
      simp only [Option.isSome_some, true_iff]
      exact ⟨h1, h2.1, h2.2.1, h2.2.2.1, h2.2.2.2⟩
  · norm_num [find_intersection, denominator, uaOf, ubOf, eps, Point.new]

/-- Claim C2: whenever the absolute value of the denominator is below
the fixed constant `1e-10`, `find_intersection` returns no
intersection. -/
theorem find_intersection_parallel (p1 p2 p3 p4 : Point)
    (h : |denominator p1 p2 p3 p4| < eps) :
    find_intersection p1 p2 p3 p4 = none := by
  rw [find_intersection_eq, if_pos h]

/-- Witness for C2: the parallel non-collinear segments
`A = (0,0)-(1,0)` and `B = (0,1)-(1,1)` have denominator `0` and yield
no intersection. -/
theorem find_intersection_parallel_witness :
    |denominator (Point.new 0 0) (Point.new 1 0) (Point.new 0 1) (Point.new 1 1)| < eps ∧
    find_intersection (Point.new 0 0) (Point.new 1 0) (Point.new 0 1) (Point.new 1 1) = none :=
  ⟨by norm_num [denominator, eps, Point.new],
   find_intersection_parallel (Point.new 0 0) (Point.new 1 0) (Point.new 0 1) (Point.new 1 1)
     (by norm_num [denominator, eps, Point.new])⟩

/-- Claim C4: the crossing segments `A = (0,0)-(2,2)` and
`B = (0,2)-(2,0)` intersect exactly at `(1,1)`. -/
theorem find_intersection_known_crossing :
    find_intersection (Point.new 0 0) (Point.new 2 2) (Point.new 0 2) (Point.new 2 0) =
      some (Point.new 1 1) := by
  norm_num [find_intersection, denominator, uaOf, ubOf, eps, Point.new]

/-- Claim C5: segment intersection is order-independent — swapping the
two segments yields the same optional point. -/
theorem find_intersection_symm (p1 p2 p3 p4 : Point) :
    find_intersection p3 p4 p1 p2 = find_intersection p1 p2 p3 p4 := by
  rw [find_intersection_eq, find_intersection_eq,
    abs_denominator_swap p1 p2 p3 p4, uaOf_swap p1 p2 p3 p4, ubOf_swap p1 p2 p3 p4]
  by_cases h1 : |denominator p1 p2 p3 p4| < eps
  · rw [if_pos h1, if_pos h1]
  · rw [if_neg h1, if_neg h1]
    have hD := denominator_ne_zero h1
    rw [if_congr (show
        (ubOf p1 p2 p3 p4 < 0 ∨ ubOf p1 p2 p3 p4 > 1 ∨
          uaOf p1 p2 p3 p4 < 0 ∨ uaOf p1 p2 p3 p4 > 1) ↔
        (uaOf p1 p2 p3 p4 < 0 ∨ uaOf p1 p2 p3 p4 > 1 ∨
          ubOf p1 p2 p3 p4 < 0 ∨ ubOf p1 p2 p3 p4 > 1) from by tauto) rfl rfl]
    by_cases h2 : uaOf p1 p2 p3 p4 < 0 ∨ uaOf p1 p2 p3 p4 > 1 ∨
        ubOf p1 p2 p3 p4 < 0 ∨ ubOf p1 p2 p3 p4 > 1
    · rw [if_pos h2, if_pos h2]
    · rw [if_neg h2, if_neg h2,
        point_on_both_x p1 p2 p3 p4 hD, point_on_both_y p1 p2 p3 p4 hD]

/-- Claim C3: on even-length vertex arrays the sweep enumerates the
edges of both polygons at every even offset with modulo wraparound,
tests the full cross product of edge pairs with no early termination,
and returns exactly the concatenation, in (outer A-edge, inner B-edge)
order, of x then y for each pair on which `find_intersection` returns a
point — that is, exactly `find_all_intersections_spec`. -/
theorem find_all_intersections_characterization (v1 v2 : List ℚ)
    (h1 : v1.length % 2 = 0) (h2 : v2.length % 2 = 0) :
    find_all_intersections v1 v2 = some (find_all_intersections_spec v1 v2) :=
  find_all_eq_specAux v1 v2 h1 h2

/-- Witness for C3: the characterization instantiated at two concrete
two-vertex polygons. -/
theorem find_all_intersections_characterization_witness :
    find_all_intersections [0, 0, 2, 2] [0, 2, 2, 0] =
      some (find_all_intersections_spec [0, 0, 2, 2] [0, 2, 2, 0]) :=
  find_all_intersections_characterization [0, 0, 2, 2] [0, 2, 2, 0] rfl rfl

/-- Claim C6: the sweep never signals an error — when no tested edge
pair intersects it returns the empty sequence, and a vertex count of 0
for either polygon attempts no intersections and yields the empty
result. -/
theorem find_all_intersections_no_error (v1 v2 : List ℚ)
    (h1 : v1.length % 2 = 0) (h2 : v2.length % 2 = 0)
    (hnone : ∀ i ∈ evens v1.length, ∀ j ∈ evens v2.length,
      find_intersection (edgeFrom v1 i).1 (edgeFrom v1 i).2
        (edgeFrom v2 j).1 (edgeFrom v2 j).2 = none) :
    find_all_intersections v1 v2 = some [] ∧
    find_all_intersections [] v2 = some [] ∧
    find_all_intersections v1 [] = some [] := by
  refine ⟨?_, rfl, ?_⟩
  · rw [find_all_eq_specAux v1 v2 h1 h2, find_all_intersections_spec]
    rw [flatten_eq_nil_of_forall _ _ (fun i hi => flatten_eq_nil_of_forall _ _
      (fun j hj => by rw [specCell, hnone i hi j hj, Option.elim_none]))]
  · rw [find_all_intersections]
    rw [optMap_eq_map
      (fun i => (optMap (fun j => scanPair v1 [] i j)
        (evens ([] : List ℚ).length)).bind fun cells => some cells.flatten)
      (fun _ => ([] : List ℚ)) (evens v1.length) (fun i _ => rfl)]
    rw [Option.some_bind, flatten_eq_nil_of_forall _ _ (fun _ _ => rfl)]

/-- Witness for C6: a degenerate one-vertex polygon against another
yields no intersections, and empty inputs give empty results. -/
theorem find_all_intersections_no_error_witness :
    find_all_intersections [0, 0] [5, 5] = some [] ∧
    find_all_intersections [] [5, 5] = some [] ∧
    find_all_intersections [0, 0] [] = some [] :=
  find_all_intersections_no_error [0, 0] [5, 5] rfl rfl (by
    intro i hi j hj
    rw [show evens (([0, 0] : List ℚ).length) = [0] from rfl] at hi
    rw [show evens (([5, 5] : List ℚ).length) = [0] from rfl] at hj
    simp only [List.mem_singleton] at hi hj
    subst hi; subst hj
    exact find_intersection_degenerate_left (Point.new 0 0)
      (edgeFrom [5, 5] 0).1 (edgeFrom [5, 5] 0).2)

/-- Claim C7 counterexample: an input shorter than 4 doubles is not
rejected — the sweep silently returns a normal (empty) result instead
of failing with an input-validation error. -/
theorem find_all_intersections_no_short_input_check :
    find_all_intersections [] [] = some [] := rfl

/-- Claim C7 (amended): `find_all_intersections` performs no input
validation — even-length inputs shorter than 4 doubles silently return
the empty sequence, and an odd-length input (paired with a nonempty
polygon) hits an out-of-bounds slice index (a panic, modelled `none`),
not a descriptive validation error. -/
theorem find_all_intersections_no_validation :
    find_all_intersections [] [] = some [] ∧
    find_all_intersections [0, 0] [0, 0] = some [] ∧
    find_all_intersections [0, 0, 0] [0, 0, 0, 0] = none := by
  refine ⟨rfl, ?_, ?_⟩
  · rw [find_all_intersections]
    rw [show evens (([0, 0] : List ℚ).length) = [0] from rfl]
    simp [scanPair]
    norm_num [find_intersection, denominator, eps, Point.new]
  · rw [find_all_intersections]
    rw [show evens (([0, 0, 0] : List ℚ).length) = [0, 2] from rfl]
    rw [show evens (([0, 0, 0, 0] : List ℚ).length) = [0, 2] from rfl]
    simp [scanPair]

/-- Claim C9: the sweep is deterministic and stateless — it is a pure
function of its inputs, so two successive calls on the same input
return the same output, each equal to the single-call result. -/
theorem scan_twice_deterministic (v1 v2 : List ℚ) :
    (scan_twice v1 v2).1 = (scan_twice v1 v2).2 ∧
    (scan_twice v1 v2).2 = find_all_intersections v1 v2 :=
  ⟨rfl, rfl⟩

/-- Claim C10: on any even-length inputs (including lengths 0 and 2,
below the spec's documented minimum) every computed index is in bounds
— no panic — the returned vector has even length, and a single-vertex
polygon (length-2 array) produces only zero-length edges, which have
denominator `0` and contribute no intersection points. -/
theorem find_all_intersections_safe (v1 v2 : List ℚ)
    (h1 : v1.length % 2 = 0) (h2 : v2.length % 2 = 0) :
    (∃ out, find_all_intersections v1 v2 = some out ∧ out.length % 2 = 0) ∧
    (∀ x y : ℚ, find_all_intersections [x, y] v2 = some []) ∧
    (∀ x y : ℚ, find_all_intersections v1 [x, y] = some []) := by
  refine ⟨⟨find_all_intersections_spec v1 v2, find_all_eq_specAux v1 v2 h1 h2, ?_⟩,
    fun x y => ?_, fun x y => ?_⟩
  · rw [find_all_intersections_spec]
    exact flatten_length_even _ _ (fun i _ =>
      flatten_length_even _ _ (fun j _ => specCell_length_even v1 v2 i j))
  · rw [find_all_eq_specAux [x, y] v2 (by simp) h2, find_all_intersections_spec]
    rw [flatten_eq_nil_of_forall _ _ (fun i hi => flatten_eq_nil_of_forall _ _
      (fun j hj => by
        rw [show evens (([x, y] : List ℚ).length) = [0] from rfl] at hi
        simp only [List.mem_singleton] at hi
        subst hi
        rw [specCell, edgeFrom_pair]
        rw [show ((Point.new x y, Point.new x y)).1 = Point.new x y from rfl,
          show ((Point.new x y, Point.new x y)).2 = Point.new x y from rfl,
          find_intersection_degenerate_left (Point.new x y)
            (edgeFrom v2 j).1 (edgeFrom v2 j).2, Option.elim_none]))]
  · rw [find_all_eq_specAux v1 [x, y] h1 (by simp), find_all_intersections_spec]
    rw [flatten_eq_nil_of_forall _ _ (fun i hi => flatten_eq_nil_of_forall _ _
      (fun j hj => by
        rw [show evens (([x, y] : List ℚ).length) = [0] from rfl] at hj
        simp only [List.mem_singleton] at hj
        subst hj
        rw [specCell, edgeFrom_pair]
        rw [show ((Point.new x y, Point.new x y)).1 = Point.new x y from rfl,
          show ((Point.new x y, Point.new x y)).2 = Point.new x y from rfl,
          find_intersection_degenerate_right (edgeFrom v1 i).1
            (edgeFrom v1 i).2 (Point.new x y), Option.elim_none]))]

/-- Witness for C10: two concrete two-vertex polygons whose single
edges cross; the sweep succeeds with an even-length output, and
single-vertex polygons contribute nothing. -/
theorem find_all_intersections_safe_witness :
    (∃ out, find_all_intersections [0, 0, 2, 2] [0, 2, 2, 0] = some out ∧
      out.length % 2 = 0) ∧
    (∀ x y : ℚ, find_all_intersections [x, y] [0, 2, 2, 0] = some []) ∧
    (∀ x y : ℚ, find_all_intersections [0, 0, 2, 2] [x, y] = some []) :=
  find_all_intersections_safe [0, 0, 2, 2] [0, 2, 2, 0] rfl rfl

end Intersections
